import Mathlib

/-!
Verification of the coraza-ban-wasm banning engine against its
natural-language specification.

The Go sources are shallowly embedded: pure functions become Lean
functions, the proxy's shared-data substrate becomes an explicit
association-list state threaded through the store operations, machine
integers (`int`, `int64`) become `Int` (no overflow is reachable in the
claims' scope), and `time.Now().Unix()` becomes an explicit `now : Int`
parameter.  JSON-encoded byte values stored in shared data are embedded
as an inductive `Bytes` whose constructors stand for the zero-length
value, a well-formed encoding of a record (Go's `encoding/json`
round-trips both record structs), or undecodable bytes.
-/

/-! ## SHA-256 (Go `crypto/sha256` + `encoding/hex`, used by `sha256Hash` in utils.go) -/

/-- Truncation to a 32-bit word, the wrap-around of Go's `uint32` arithmetic. -/
def w32 (n : Nat) : Nat := n % 4294967296

/-- Right rotation of a 32-bit word by `n` bits. -/
def rotr32 (n x : Nat) : Nat := w32 ((x >>> n) ||| (x <<< (32 - n)))

/-- The SHA-256 round constants K[0..63]. -/
def sha256K : List Nat :=
  [1116352408, 1899447441, 3049323471, 3921009573, 961987163, 1508970993,
   2453635748, 2870763221, 3624381080, 310598401, 607225278, 1426881987,
   1925078388, 2162078206, 2614888103, 3248222580, 3835390401, 4022224774,
   264347078, 604807628, 770255983, 1249150122, 1555081692, 1996064986,
   2554220882, 2821834349, 2952996808, 3210313671, 3336571891, 3584528711,
   113926993, 338241895, 666307205, 773529912, 1294757372, 1396182291,
   1695183700, 1986661051, 2177026350, 2456956037, 2730485921, 2820302411,
   3259730800, 3345764771, 3516065817, 3600352804, 4094571909, 275423344,
   430227734, 506948616, 659060556, 883997877, 958139571, 1322822218,
   1537002063, 1747873779, 1955562222, 2024104815, 2227730452, 2361852424,
   2428436474, 2756734187, 3204031479, 3329325298]

/-- The SHA-256 initial hash value H[0..7]. -/
def sha256H0 : List Nat :=
  [1779033703, 3144134277, 1013904242, 2773480762, 1359893119, 2600822924,
   528734635, 1541459225]

/-- Big-endian bytes of a 64-bit quantity. -/
def be64 (n : Nat) : List Nat :=
  (List.range 8).map (fun i => (n >>> (8 * (7 - i))) % 256)

/-- SHA-256 message padding: append 0x80, zero bytes up to 56 mod 64, then the
bit length as a 64-bit big-endian quantity. -/
def sha256Pad (msg : List Nat) : List Nat :=
  let z := (119 - msg.length % 64) % 64
  msg ++ [0x80] ++ List.replicate z 0 ++ be64 (8 * msg.length)

/-- Split a byte list into successive 64-byte blocks. -/
def blocks64 (l : List Nat) : List (List Nat) :=
  if h : l = [] then []
  else (l.take 64) :: blocks64 (l.drop 64)
termination_by l.length
decreasing_by
  rw [List.length_drop]
  exact Nat.sub_lt (List.length_pos.mpr h) (by norm_num)

/-- The 16 big-endian 32-bit words of one 64-byte block. -/
def words16 (block : List Nat) : List Nat :=
  (List.range 16).map (fun i =>
    (block.getD (4 * i) 0) <<< 24 + (block.getD (4 * i + 1) 0) <<< 16 +
    (block.getD (4 * i + 2) 0) <<< 8 + block.getD (4 * i + 3) 0)

/-- The SHA-256 message schedule: the 16 block words extended to 64. -/
def sha256Schedule (block : List Nat) : List Nat :=
  (List.range 48).foldl
    (fun w _ =>
      let n := w.length
      let w15 := w.getD (n - 15) 0
      let w2 := w.getD (n - 2) 0
      let s0 := (rotr32 7 w15) ^^^ (rotr32 18 w15) ^^^ (w15 >>> 3)
      let s1 := (rotr32 17 w2) ^^^ (rotr32 19 w2) ^^^ (w2 >>> 10)
      w ++ [w32 (w.getD (n - 16) 0 + s0 + w.getD (n - 7) 0 + s1)])
    (words16 block)

/-- One round of the SHA-256 compression function on the working variables. -/
def sha256Round (st : List Nat) (kw : Nat × Nat) : List Nat :=
  match st with
  | [a, b, c, d, e, f, g, h] =>
      let s1 := (rotr32 6 e) ^^^ (rotr32 11 e) ^^^ (rotr32 25 e)
      let ch := (e &&& f) ^^^ ((4294967295 - e) &&& g)
      let t1 := w32 (h + s1 + ch + kw.1 + kw.2)
      let s0 := (rotr32 2 a) ^^^ (rotr32 13 a) ^^^ (rotr32 22 a)
      let mj := (a &&& b) ^^^ (a &&& c) ^^^ (b &&& c)
      let t2 := w32 (s0 + mj)
      [w32 (t1 + t2), a, b, c, w32 (d + t1), e, f, g]
  | other => other

/-- Compress one 64-byte block into the running hash state. -/
def sha256Compress (hs : List Nat) (block : List Nat) : List Nat :=
  let w := sha256Schedule block
  let st := (sha256K.zip w).foldl sha256Round hs
  (hs.zip st).map (fun p => w32 (p.1 + p.2))

/-- SHA-256 digest of a byte list, as 32 bytes. -/
def sha256Bytes (msg : List Nat) : List Nat :=
  let hs := (blocks64 (sha256Pad msg)).foldl sha256Compress sha256H0
  hs.flatMap (fun h => [(h >>> 24) % 256, (h >>> 16) % 256, (h >>> 8) % 256, h % 256])

/-- One lower-case hexadecimal digit. -/
def hexChar (n : Nat) : Char := "0123456789abcdef".toList.getD n '0'

/-- Lower-case hex encoding of a byte list (Go `hex.EncodeToString`). -/
def hexEncode (bs : List Nat) : String :=
  String.join (bs.map (fun b => String.mk [hexChar (b / 16), hexChar (b % 16)]))

/-- The UTF-8 bytes of a string, as `Nat`s. -/
def strBytes (s : String) : List Nat := s.toUTF8.toList.map (fun b => b.toNat)

/-- Embeds `sha256Hash` (utils.go): hex-encoded SHA-256 of the input's UTF-8 bytes. -/
def sha256Hash (input : String) : String := hexEncode (sha256Bytes (strBytes input))

/-! ## utils.go: IP prefix extraction

Go's `strings.Split`, `strings.HasPrefix` and `strings.Join` are embedded as
structural recursions over the character list (the source only ever splits
on the single characters '.' and ':'), so that concrete inputs evaluate. -/

/-- Go `strings.Split` with a one-character separator: every separator
occurrence splits, empty parts kept, `Split("") = [""]`. -/
def splitOnChar (sep : Char) : List Char → List (List Char)
  | [] => [[]]
  | c :: rest =>
      match splitOnChar sep rest with
      | [] => [[c]]
      | g :: gs => if c = sep then [] :: g :: gs else (c :: g) :: gs

/-- Go `strings.HasPrefix` over character lists. -/
def hasPrefixChars : List Char → List Char → Bool
  | _, [] => true
  | [], _ :: _ => false
  | c :: cs, p :: ps => c = p && hasPrefixChars cs ps

/-- Go `strings.Join`. -/
def stringsJoin : List String → String → String
  | [], _ => ""
  | [x], _ => x
  | x :: y :: xs, sep => x ++ sep ++ stringsJoin (y :: xs) sep

/-- Embeds `extractIPPrefix` (utils.go): the /24 prefix of an IPv4 address
(first three octets), the first three groups of an IPv6 address, unwrapping a
`::ffff:`-mapped IPv4 form first; otherwise the address unchanged. -/
def extractIPPrefix (ip : String) : String :=
  let ip := if hasPrefixChars ip.toList "::ffff:".toList then String.mk (ip.toList.drop 7)
    else ip
  let parts := (splitOnChar '.' ip.toList).map String.mk
  if parts.length = 4 then stringsJoin (parts.take 3) "."
  else
    let parts := (splitOnChar ':' ip.toList).map String.mk
    if 3 ≤ parts.length then stringsJoin (parts.take 3) ":"
    else ip

/-! ## Ban and score record types (part_007 / utils section of service_ban_test.go) -/

/-- Embeds `BanEntry`: a ban record as stored in cache or Redis. -/
structure BanEntry where
  fingerprint : String
  reason : String
  ruleID : String
  severity : String
  createdAt : Int
  expiresAt : Int
  ttl : Int
  score : Int
deriving DecidableEq, Repr

/-- Embeds `NewBanEntry`: `created_at = now`, `expires_at = now + ttl`; the Go
zero value of the `Score` field is 0. -/
def NewBanEntry (fingerprint reason ruleID severity : String) (ttl : Int) (now : Int) : BanEntry :=
  { fingerprint := fingerprint
    reason := reason
    ruleID := ruleID
    severity := severity
    createdAt := now
    expiresAt := now + ttl
    ttl := ttl
    score := 0 }

/-- Embeds `BanEntry.IsExpired`: true iff `now > expires_at`. -/
def BanEntry.IsExpired (b : BanEntry) (now : Int) : Bool := b.expiresAt < now

/-- Embeds `RuleHit`: one WAF rule trigger event recorded in a score entry. -/
structure RuleHit where
  ruleID : String
  severity : String
  score : Int
  timestamp : Int
deriving DecidableEq, Repr

/-- Embeds `ScoreEntry`: a behavioral score record for a client fingerprint. -/
structure ScoreEntry where
  fingerprint : String
  score : Int
  lastUpdated : Int
  ruleHits : List RuleHit
deriving DecidableEq, Repr

/-- Embeds `NewScoreEntry`: zero score, `last_updated = now`, no rule hits. -/
def NewScoreEntry (fingerprint : String) (now : Int) : ScoreEntry :=
  { fingerprint := fingerprint, score := 0, lastUpdated := now, ruleHits := [] }

/-- Embeds `ScoreEntry.AddScore`: add the increment, set `last_updated := now`
and append one rule-hit entry. -/
def ScoreEntry.AddScore (s : ScoreEntry) (ruleID severity : String) (score : Int)
    (now : Int) : ScoreEntry :=
  { s with
    score := s.score + score
    lastUpdated := now
    ruleHits := s.ruleHits ++ [RuleHit.mk ruleID severity score now] }

/-- Embeds `ScoreEntry.DecayScore`: no-op when `decaySeconds ≤ 0`; otherwise
`decay = (now - last_updated) / decaySeconds` with Go's truncating `int64`
division, and when `decay > 0` the score drops by `decay`, clamped at zero,
and `last_updated` becomes `now`. -/
def ScoreEntry.DecayScore (s : ScoreEntry) (decaySeconds : Int) (now : Int) : ScoreEntry :=
  if decaySeconds ≤ 0 then s
  else
    let elapsed := now - s.lastUpdated
    let decay := elapsed.tdiv decaySeconds
    if 0 < decay then
      let score := s.score - decay
      { s with score := if score < 0 then 0 else score, lastUpdated := now }
    else s

/-- Embeds `BanKey`: the storage key `ban:<fingerprint>`. -/
def BanKey (fingerprint : String) : String := "ban:" ++ fingerprint

/-- Embeds `ScoreKey`: the storage key `score:<fingerprint>`. -/
def ScoreKey (fingerprint : String) : String := "score:" ++ fingerprint

/-! ## C1: score decay -/

/-- Truncating division of an integer below the (positive) divisor is nonpositive. -/
theorem tdiv_nonpos_of_lt {a b : Int} (hb : 0 < b) (h : a < b) : a.tdiv b ≤ 0 := by
  rcases le_or_lt 0 a with ha | ha
  · exact le_of_eq (Int.tdiv_eq_zero_of_lt ha h)
  · have h1 : a.tdiv b = -((-a).tdiv b) := by
      rw [← Int.neg_tdiv, neg_neg]
    rw [h1]
    exact neg_nonpos_of_nonneg (Int.tdiv_nonneg (by omega) (le_of_lt hb))

/-- Truncating division is at least one when the dividend reaches the positive divisor. -/
theorem tdiv_pos_of_le {a b : Int} (hb : 0 < b) (h : b ≤ a) : 0 < a.tdiv b := by
  have ha : 0 ≤ a := le_trans (le_of_lt hb) h
  rw [Int.tdiv_eq_ediv ha (le_of_lt hb)]
  have := (Int.le_ediv_iff_mul_le hb).mpr (by omega : 1 * b ≤ a)
  omega

/-- C1: applying decay computes `decay = floor((now - last_updated)/d)`; if
`d ≤ 0`, or if fewer than `d` seconds have elapsed since `last_updated`, the
score and `last_updated` are unchanged; otherwise the score is reduced by the
decay amount, floored at zero, and `last_updated` is set to `now`; after any
decay application the score is nonnegative, and a nonnegative score stays
nonnegative in every branch. -/
theorem C1_decay_spec (s : ScoreEntry) (d now : Int) :
    (d ≤ 0 → s.DecayScore d now = s) ∧
    (0 < d → now - s.lastUpdated < d → s.DecayScore d now = s) ∧
    (0 < d → d ≤ now - s.lastUpdated →
      (s.DecayScore d now).score = max 0 (s.score - (now - s.lastUpdated).fdiv d) ∧
      (s.DecayScore d now).lastUpdated = now ∧
      0 ≤ (s.DecayScore d now).score ∧
      (s.DecayScore d now).fingerprint = s.fingerprint ∧
      (s.DecayScore d now).ruleHits = s.ruleHits) ∧
    (0 ≤ s.score → 0 ≤ (s.DecayScore d now).score) := by
  refine ⟨fun hd => ?_, fun hd hlt => ?_, fun hd hge => ?_, fun hs => ?_⟩
  · simp [ScoreEntry.DecayScore, hd]
  · have hnd : ¬ d ≤ 0 := not_le.mpr hd
    have : ¬ (0 < (now - s.lastUpdated).tdiv d) :=
      not_lt.mpr (tdiv_nonpos_of_lt hd hlt)
    simp [ScoreEntry.DecayScore, hnd, this]
  · have hnd : ¬ d ≤ 0 := not_le.mpr hd
    have hpos : 0 < (now - s.lastUpdated).tdiv d := tdiv_pos_of_le hd hge
    have helapsed : (0:Int) ≤ now - s.lastUpdated := le_trans (le_of_lt hd) hge
    have hfd : (now - s.lastUpdated).fdiv d = (now - s.lastUpdated).tdiv d :=
      Int.fdiv_eq_tdiv helapsed (le_of_lt hd)
    refine ⟨?_, ?_, ?_, ?_, ?_⟩ <;>
      simp [ScoreEntry.DecayScore, hnd, hpos, hfd] <;> omega
  · by_cases hd : d ≤ 0
    · simpa [ScoreEntry.DecayScore, hd] using hs
    · by_cases hdecay : 0 < (now - s.lastUpdated).tdiv d
      · simp only [ScoreEntry.DecayScore, if_neg hd, if_pos hdecay]
        split <;> omega
      · simpa [ScoreEntry.DecayScore, hd, hdecay] using hs

/-! ## The proxy's shared-data substrate

Envoy shared data offers `get(key) -> (bytes, cas)` and
`set(key, bytes, cas) -> ok | cas_mismatch`, with `cas = 0` setting
unconditionally and a successful set bumping the entry's token.  Stored byte
values are embedded as `Bytes`: the zero-length value, a well-formed JSON
encoding of one of the two record types (Go's `encoding/json` round-trips
them), or undecodable bytes. -/

/-- A stored shared-data value, as the local stores can observe it. -/
inductive Bytes
  | empty
  | banJson (e : BanEntry)
  | scoreJson (e : ScoreEntry)
  | corrupt
deriving DecidableEq, Repr

/-- Embeds `BanEntryFromJSON`: decoding succeeds exactly on a well-formed
ban-entry encoding. -/
def BanEntryFromJSON : Bytes → Option BanEntry
  | .banJson e => some e
  | _ => none

/-- Embeds `ScoreEntryFromJSON`: decoding succeeds exactly on a well-formed
score-entry encoding. -/
def ScoreEntryFromJSON : Bytes → Option ScoreEntry
  | .scoreJson e => some e
  | _ => none

/-- Association-list lookup for the shared-data table. -/
def sdLookup : List (String × Bytes × Nat) → String → Option (Bytes × Nat)
  | [], _ => none
  | p :: rest, k => if p.1 = k then some p.2 else sdLookup rest k

/-- Association-list write (replace or append) for the shared-data table. -/
def sdWrite : List (String × Bytes × Nat) → String → Bytes → Nat → List (String × Bytes × Nat)
  | [], k, v, c => [(k, v, c)]
  | p :: rest, k, v, c => if p.1 = k then (k, v, c) :: rest else p :: sdWrite rest k v c

/-- The process-wide shared-data table: key to (bytes, cas token). -/
structure SharedData where
  tbl : List (String × Bytes × Nat)
deriving DecidableEq, Repr

/-- Embeds `proxywasm.GetSharedData`: the stored bytes and cas token, `none`
standing for the NotFound status. -/
def SharedData.get (sd : SharedData) (k : String) : Option (Bytes × Nat) :=
  sdLookup sd.tbl k

/-- The cas token a caller observes for a key: `GetSharedData` yields the Go
zero value 0 when the key is absent. -/
def SharedData.casOf (sd : SharedData) (k : String) : Nat :=
  match sd.get k with
  | some p => p.2
  | none => 0

/-- Unconditional store of (bytes, token) under a key. -/
def SharedData.write (sd : SharedData) (k : String) (v : Bytes) (c : Nat) : SharedData :=
  ⟨sdWrite sd.tbl k v c⟩

/-- Embeds `proxywasm.SetSharedData`: succeeds iff the supplied token is 0 or
matches the key's current token, bumping the token; `none` is the
CasMismatch status. -/
def SharedData.set (sd : SharedData) (k : String) (v : Bytes) (cas : Nat) : Option SharedData :=
  if cas = 0 ∨ cas = sd.casOf k then some (sd.write k v (sd.casOf k + 1)) else none

theorem sdLookup_sdWrite_self (tbl : List (String × Bytes × Nat)) (k : String)
    (v : Bytes) (c : Nat) : sdLookup (sdWrite tbl k v c) k = some (v, c) := by
  induction tbl with
  | nil => simp [sdWrite, sdLookup]
  | cons p rest ih =>
      by_cases h : p.1 = k
      · simp [sdWrite, sdLookup, h]
      · simp [sdWrite, sdLookup, h, ih]

theorem sdLookup_sdWrite_other (tbl : List (String × Bytes × Nat)) (k k' : String)
    (v : Bytes) (c : Nat) (h : k' ≠ k) :
    sdLookup (sdWrite tbl k v c) k' = sdLookup tbl k' := by
  induction tbl with
  | nil =>
      simp only [sdWrite, sdLookup]
      rw [if_neg (fun hh => h hh.symm)]
  | cons p rest ih =>
      by_cases hp : p.1 = k
      · simp only [sdWrite, if_pos hp, sdLookup]
        rw [if_neg (fun hh => h hh.symm), if_neg (fun hh => h (hh.symm.trans hp))]
      · simp [sdWrite, sdLookup, hp, ih]

/-- A set with the key's freshly read token always succeeds, and the key then
holds the new bytes under a bumped token. -/
theorem SharedData.set_casOf (sd : SharedData) (k : String) (v : Bytes) :
    sd.set k v (sd.casOf k) = some (sd.write k v (sd.casOf k + 1)) := by
  simp [SharedData.set]

theorem SharedData.get_write_self (sd : SharedData) (k : String) (v : Bytes) (c : Nat) :
    (sd.write k v c).get k = some (v, c) :=
  sdLookup_sdWrite_self sd.tbl k v c

/-! ## Local stores (store_local.go)

The definitions below give the stores' sequential semantics: between a store
operation's internal `GetSharedData` and `SetSharedData` no other writer
intervenes, so a set under the freshly read token always succeeds (the
contended path, where the environment may interpose writes, is modelled
separately for the CAS-retry claim). -/

/-- Embeds `LocalBanStore.DeleteBan` (store_local.go 83-93): store zero-length
bytes under the key's current cas token — the substrate has no true delete. -/
def LocalBanStore.DeleteBan (sd : SharedData) (fp : String) : SharedData :=
  let k := BanKey fp
  (sd.set k Bytes.empty (sd.casOf k)).getD sd

/-- Embeds `LocalBanStore.SetBan` (store_local.go 58-80), sequential case:
JSON-encode the entry and set it under the key's current cas token. -/
def LocalBanStore.SetBan (sd : SharedData) (e : BanEntry) : SharedData :=
  let k := BanKey e.fingerprint
  (sd.set k (Bytes.banJson e) (sd.casOf k)).getD sd

/-- Embeds `LocalBanStore.CheckBan` (store_local.go 26-55): read the key
(NotFound, zero-length bytes and undecodable bytes are all absent); an
expired entry is lazily deleted and reported absent; otherwise the entry is
returned and the state untouched. -/
def LocalBanStore.CheckBan (sd : SharedData) (now : Int) (fp : String) :
    Option BanEntry × SharedData :=
  match sd.get (BanKey fp) with
  | none => (none, sd)
  | some (data, _) =>
      if data = Bytes.empty then (none, sd)
      else
        match BanEntryFromJSON data with
        | none => (none, sd)
        | some entry =>
            if entry.IsExpired now then (none, LocalBanStore.DeleteBan sd fp)
            else (some entry, sd)

/-- Embeds `LocalScoreStore.GetScore` (store_local.go 118-140): read the key;
NotFound, zero-length bytes and undecodable bytes are all absent. -/
def LocalScoreStore.GetScore (sd : SharedData) (fp : String) : Option ScoreEntry :=
  match sd.get (ScoreKey fp) with
  | none => none
  | some (data, _) =>
      if data = Bytes.empty then none else ScoreEntryFromJSON data

/-- Embeds `LocalScoreStore.SetScore` (store_local.go 143-162), sequential
case: JSON-encode the entry and set it under the key's current cas token. -/
def LocalScoreStore.SetScore (sd : SharedData) (e : ScoreEntry) : SharedData :=
  let k := ScoreKey e.fingerprint
  (sd.set k (Bytes.scoreJson e) (sd.casOf k)).getD sd

/-- Embeds `LocalScoreStore.IncrScore` (store_local.go 166-186): read the
existing entry or create a zero record, apply time decay, add the increment,
write the entry back and return the post-increment score. -/
def LocalScoreStore.IncrScore (decaySeconds : Int) (sd : SharedData) (now : Int)
    (fp : String) (increment : Int) : Int × SharedData :=
  let entry := (LocalScoreStore.GetScore sd fp).getD (NewScoreEntry fp now)
  let entry := entry.DecayScore decaySeconds now
  let entry := { entry with score := entry.score + increment }
  (entry.score, LocalScoreStore.SetScore sd entry)

theorem DeleteBan_get (sd : SharedData) (fp : String) :
    (LocalBanStore.DeleteBan sd fp).get (BanKey fp) =
      some (Bytes.empty, sd.casOf (BanKey fp) + 1) := by
  simp only [LocalBanStore.DeleteBan, SharedData.set_casOf, Option.getD_some]
  exact SharedData.get_write_self sd (BanKey fp) Bytes.empty (sd.casOf (BanKey fp) + 1)

theorem SetBan_get (sd : SharedData) (e : BanEntry) :
    (LocalBanStore.SetBan sd e).get (BanKey e.fingerprint) =
      some (Bytes.banJson e, sd.casOf (BanKey e.fingerprint) + 1) := by
  simp only [LocalBanStore.SetBan, SharedData.set_casOf, Option.getD_some]
  exact SharedData.get_write_self sd (BanKey e.fingerprint) (Bytes.banJson e)
    (sd.casOf (BanKey e.fingerprint) + 1)

theorem SetScore_get (sd : SharedData) (e : ScoreEntry) :
    (LocalScoreStore.SetScore sd e).get (ScoreKey e.fingerprint) =
      some (Bytes.scoreJson e, sd.casOf (ScoreKey e.fingerprint) + 1) := by
  simp only [LocalScoreStore.SetScore, SharedData.set_casOf, Option.getD_some]
  exact SharedData.get_write_self sd (ScoreKey e.fingerprint) (Bytes.scoreJson e)
    (sd.casOf (ScoreKey e.fingerprint) + 1)

/-- Decay never touches the rule-hit list. -/
theorem DecayScore_ruleHits (s : ScoreEntry) (d now : Int) :
    (s.DecayScore d now).ruleHits = s.ruleHits := by
  by_cases hd : d ≤ 0
  · simp [ScoreEntry.DecayScore, hd]
  · by_cases hdecay : 0 < (now - s.lastUpdated).tdiv d
    · simp [ScoreEntry.DecayScore, hd, hdecay]
    · simp [ScoreEntry.DecayScore, hd, hdecay]

/-- Decay never touches the fingerprint. -/
theorem DecayScore_fingerprint (s : ScoreEntry) (d now : Int) :
    (s.DecayScore d now).fingerprint = s.fingerprint := by
  by_cases hd : d ≤ 0
  · simp [ScoreEntry.DecayScore, hd]
  · by_cases hdecay : 0 < (now - s.lastUpdated).tdiv d
    · simp [ScoreEntry.DecayScore, hd, hdecay]
    · simp [ScoreEntry.DecayScore, hd, hdecay]

/-! ## C4: expired local bans are absent and lazily deleted -/

/-- C4: when the stored local ban record for a fingerprint is expired
(`now > expires_at`), `check_ban` returns absent and lazily deletes the
record by writing empty bytes under the current cas token; a non-expired
stored record is returned as banned with the state untouched. -/
theorem C4_local_ban_expiry (sd : SharedData) (now : Int) (fp : String) (e : BanEntry)
    (c : Nat) (hget : sd.get (BanKey fp) = some (Bytes.banJson e, c)) :
    (e.IsExpired now = true →
      (LocalBanStore.CheckBan sd now fp).1 = none ∧
      (LocalBanStore.CheckBan sd now fp).2 = LocalBanStore.DeleteBan sd fp ∧
      (LocalBanStore.CheckBan sd now fp).2.get (BanKey fp) = some (Bytes.empty, c + 1)) ∧
    (e.IsExpired now = false → LocalBanStore.CheckBan sd now fp = (some e, sd)) := by
  have hcas : sd.casOf (BanKey fp) = c := by simp [SharedData.casOf, hget]
  constructor
  · intro hexp
    refine ⟨?_, ?_, ?_⟩
    · simp [LocalBanStore.CheckBan, hget, BanEntryFromJSON, hexp]
    · simp [LocalBanStore.CheckBan, hget, BanEntryFromJSON, hexp]
    · have h2 : (LocalBanStore.CheckBan sd now fp).2 = LocalBanStore.DeleteBan sd fp := by
        simp [LocalBanStore.CheckBan, hget, BanEntryFromJSON, hexp]
      rw [h2, DeleteBan_get, hcas]
  · intro hexp
    simp [LocalBanStore.CheckBan, hget, BanEntryFromJSON, hexp]

/-- C4 witness: a concrete expired record (ttl 60 issued at time 0, read at
time 100) is reported absent and overwritten with empty bytes. -/
theorem C4_local_ban_expiry_witness :
    (LocalBanStore.CheckBan
        ⟨[(BanKey "f", Bytes.banJson (NewBanEntry "f" "waf-rule:930120" "930120" "high" 60 0), 3)]⟩
        100 "f").1 = none :=
  ((C4_local_ban_expiry
      ⟨[(BanKey "f", Bytes.banJson (NewBanEntry "f" "waf-rule:930120" "930120" "high" 60 0), 3)]⟩
      100 "f" (NewBanEntry "f" "waf-rule:930120" "930120" "high" 60 0) 3 (by decide)).1
    (by decide)).1

/-! ## C10: zero-length stored values are no record -/

/-- C10: `DeleteBan` stores zero-length bytes (the substrate has no true
delete); a subsequent `CheckBan` then returns absent without touching the
state; and every read of the local stores treats a zero-length stored value
as no record (both the ban read and the score read). -/
theorem C10_delete_then_absent (sd : SharedData) (fp : String) (now : Int) (c : Nat) :
    (LocalBanStore.DeleteBan sd fp).get (BanKey fp) =
      some (Bytes.empty, sd.casOf (BanKey fp) + 1) ∧
    LocalBanStore.CheckBan (LocalBanStore.DeleteBan sd fp) now fp =
      (none, LocalBanStore.DeleteBan sd fp) ∧
    (sd.get (BanKey fp) = some (Bytes.empty, c) →
      LocalBanStore.CheckBan sd now fp = (none, sd)) ∧
    (sd.get (ScoreKey fp) = some (Bytes.empty, c) →
      LocalScoreStore.GetScore sd fp = none) := by
  refine ⟨DeleteBan_get sd fp, ?_, fun h => ?_, fun h => ?_⟩
  · simp [LocalBanStore.CheckBan, DeleteBan_get sd fp]
  · simp [LocalBanStore.CheckBan, h]
  · simp [LocalScoreStore.GetScore, h]

/-! ## C3: incr_score -/

/-- C3 as amended: `incr_score(fp, k)` reads the existing score record or
creates a zero record, applies time decay, adds the increment, writes the
record back and returns the post-increment score — but appends no
`rule_hits` entry: the written record's rule hits are exactly those of the
record that was read (only `ScoreEntry.AddScore`, which `IncrScore` never
calls, appends one). -/
theorem C3_incr_score_amended (d : Int) (sd : SharedData) (now : Int) (fp : String)
    (inc : Int)
    (hfp : ((LocalScoreStore.GetScore sd fp).getD (NewScoreEntry fp now)).fingerprint = fp) :
    (LocalScoreStore.IncrScore d sd now fp inc).1 =
      (((LocalScoreStore.GetScore sd fp).getD (NewScoreEntry fp now)).DecayScore d now).score
        + inc ∧
    (LocalScoreStore.IncrScore d sd now fp inc).2.get (ScoreKey fp) =
      some (Bytes.scoreJson
        { ((LocalScoreStore.GetScore sd fp).getD (NewScoreEntry fp now)).DecayScore d now with
          score :=
            (((LocalScoreStore.GetScore sd fp).getD (NewScoreEntry fp now)).DecayScore d
              now).score + inc },
        sd.casOf (ScoreKey fp) + 1) ∧
    ({ ((LocalScoreStore.GetScore sd fp).getD (NewScoreEntry fp now)).DecayScore d now with
      score :=
        (((LocalScoreStore.GetScore sd fp).getD (NewScoreEntry fp now)).DecayScore d
          now).score + inc }).ruleHits =
      ((LocalScoreStore.GetScore sd fp).getD (NewScoreEntry fp now)).ruleHits ∧
    (LocalScoreStore.GetScore sd fp = none →
      (LocalScoreStore.GetScore sd fp).getD (NewScoreEntry fp now) = NewScoreEntry fp now) := by
  refine ⟨rfl, ?_, ?_, fun h => by simp [h]⟩
  · have hwfp :
        ({ ((LocalScoreStore.GetScore sd fp).getD (NewScoreEntry fp now)).DecayScore d now with
          score :=
            (((LocalScoreStore.GetScore sd fp).getD (NewScoreEntry fp now)).DecayScore d
              now).score + inc }).fingerprint = fp := by
      simpa [DecayScore_fingerprint] using hfp
    have := SetScore_get sd
      { ((LocalScoreStore.GetScore sd fp).getD (NewScoreEntry fp now)).DecayScore d now with
        score :=
          (((LocalScoreStore.GetScore sd fp).getD (NewScoreEntry fp now)).DecayScore d
            now).score + inc }
    rw [hwfp] at this
    exact this
  · simp [DecayScore_ruleHits]

/-- C3 counterexample to the claim as stated: on a fresh store, incrementing
by 5 returns 5 and writes back a record whose `rule_hits` list is empty —
not a record with exactly one appended hit. -/
theorem C3_counterexample :
    (LocalScoreStore.IncrScore 60 ⟨[]⟩ 1000 "f" 5).1 = 5 ∧
    (LocalScoreStore.IncrScore 60 ⟨[]⟩ 1000 "f" 5).2.get (ScoreKey "f") =
      some (Bytes.scoreJson (ScoreEntry.mk "f" 5 1000 []), 1) ∧
    (ScoreEntry.mk "f" 5 1000 []).ruleHits.length = 0 := by decide

/-- C3 witness: the amended theorem applied at a concrete fresh-store input. -/
theorem C3_incr_score_witness :
    (LocalScoreStore.IncrScore 60 ⟨[]⟩ 1000 "f" 5).1 =
      (((LocalScoreStore.GetScore ⟨[]⟩ "f").getD (NewScoreEntry "f" 1000)).DecayScore 60
        1000).score + 5 :=
  (C3_incr_score_amended 60 ⟨[]⟩ 1000 "f" 5 (by decide)).1

/-! ## Plugin configuration (config.go, the part_005 variant with `Validate`) -/

/-- Embeds the `Default*` configuration constants. -/
def DefaultBanTTL : Int := 600

/-- Embeds `DefaultScoreThreshold`. -/
def DefaultScoreThreshold : Int := 100

/-- Embeds `DefaultScoreDecay`. -/
def DefaultScoreDecay : Int := 60

/-- Embeds `DefaultScoreTTL`. -/
def DefaultScoreTTL : Int := 3600

/-- Go `map[string]int` lookup over the association-list embedding of a map. -/
def mapLookup : List (String × Int) → String → Option Int
  | [], _ => none
  | p :: rest, k => if p.1 = k then some p.2 else mapLookup rest k

/-- Embeds `PluginConfig` (config.go): the runtime configuration parsed from
JSON at plugin startup.  Go maps become association lists. -/
structure PluginConfig where
  redisCluster : String
  banTTLDefault : Int
  banTTLBySeverity : List (String × Int)
  scoringEnabled : Bool
  scoreThreshold : Int
  scoreDecaySeconds : Int
  scoreRules : List (String × Int)
  scoreBySeverity : List (String × Int)
  scoreTTL : Int
  fingerprintMode : String
  cookieName : String
  injectCookie : Bool
  banResponseCode : Int
  banResponseBody : String
  logLevel : String
  dryRun : Bool
  eventsEnabled : Bool
deriving DecidableEq, Repr

/-- Embeds `DefaultConfig` (config.go): the default configuration values,
`redis_cluster` among them. -/
def DefaultConfig : PluginConfig :=
  { redisCluster := "redis_cluster"
    banTTLDefault := DefaultBanTTL
    banTTLBySeverity := []
    scoringEnabled := false
    scoreThreshold := DefaultScoreThreshold
    scoreDecaySeconds := DefaultScoreDecay
    scoreRules := []
    scoreBySeverity := [("critical", 50), ("high", 40), ("medium", 20), ("low", 10)]
    scoreTTL := DefaultScoreTTL
    fingerprintMode := "full"
    cookieName := "__bm"
    injectCookie := false
    banResponseCode := 403
    banResponseBody := "Forbidden"
    logLevel := "info"
    dryRun := false
    eventsEnabled := true }

/-- Embeds `PluginConfig.validate` (lower case, config.go): silently replace
out-of-range or unknown values by their defaults.  Each Go branch corrects a
distinct field, so the sequential corrections are written as one simultaneous
update; the nil-map re-initialisation branches have no counterpart because the
association-list embedding has no nil/empty distinction. -/
def PluginConfig.validate (c : PluginConfig) : PluginConfig :=
  { c with
    banTTLDefault := if c.banTTLDefault ≤ 0 then DefaultBanTTL else c.banTTLDefault
    scoreThreshold := if c.scoreThreshold ≤ 0 then DefaultScoreThreshold else c.scoreThreshold
    scoreDecaySeconds :=
      if c.scoreDecaySeconds ≤ 0 then DefaultScoreDecay else c.scoreDecaySeconds
    scoreTTL := if c.scoreTTL ≤ 0 then DefaultScoreTTL else c.scoreTTL
    fingerprintMode :=
      if c.fingerprintMode = "full" ∨ c.fingerprintMode = "partial" ∨
          c.fingerprintMode = "ip-only" then c.fingerprintMode
      else "full"
    cookieName := if c.cookieName = "" then "__bm" else c.cookieName
    banResponseCode := if c.banResponseCode ≤ 0 then 403 else c.banResponseCode
    banResponseBody := if c.banResponseBody = "" then "Forbidden" else c.banResponseBody
    logLevel :=
      if c.logLevel = "debug" ∨ c.logLevel = "info" ∨ c.logLevel = "warn" ∨
          c.logLevel = "error" then c.logLevel
      else "info" }

/-- Embeds `PluginConfig.Validate` (capital, config.go): the fail-fast
validation messages, in the source's order.  Go iterates its maps in
unspecified order; the association-list order stands in for one such order,
and the claims below only use membership in the list. -/
def PluginConfig.ValidateErrors (c : PluginConfig) : List String :=
  (if c.banTTLDefault < 1 ∨ 86400 < c.banTTLDefault
    then ["ban_ttl_default must be between 1-86400 seconds"] else []) ++
  (c.banTTLBySeverity.filterMap (fun p =>
    if p.2 < 1 ∨ 86400 < p.2
      then some ("ban_ttl_by_severity[" ++ p.1 ++ "] must be between 1-86400 seconds")
      else none)) ++
  (if c.scoringEnabled ∧ (c.scoreThreshold < 1 ∨ 10000 < c.scoreThreshold)
    then ["score_threshold must be between 1-10000"] else []) ++
  (if c.scoreDecaySeconds < 1 ∨ 3600 < c.scoreDecaySeconds
    then ["score_decay_seconds must be between 1-3600 seconds"] else []) ++
  (if c.scoreTTL < 1 ∨ 86400 < c.scoreTTL
    then ["score_ttl must be between 1-86400 seconds"] else []) ++
  (c.scoreRules.filterMap (fun p =>
    if p.2 < 1 ∨ 1000 < p.2
      then some ("score_rules[" ++ p.1 ++ "] must be between 1-1000") else none)) ++
  (c.scoreBySeverity.filterMap (fun p =>
    if p.2 < 1 ∨ 1000 < p.2
      then some ("score_by_severity[" ++ p.1 ++ "] must be between 1-1000") else none)) ++
  (if c.fingerprintMode = "full" ∨ c.fingerprintMode = "partial" ∨
      c.fingerprintMode = "ip-only" then []
    else ["fingerprint_mode must be one of: full, partial, ip-only"]) ++
  (if c.banResponseCode < 400 ∨ 599 < c.banResponseCode
    then ["ban_response_code must be between 400-599"] else []) ++
  (if c.logLevel = "debug" ∨ c.logLevel = "info" ∨ c.logLevel = "warn" ∨
      c.logLevel = "error" then []
    else ["log_level must be one of: debug, info, warn, error"]) ++
  (if c.injectCookie ∧ c.cookieName = ""
    then ["cookie_name is required when inject_cookie is true"] else [])

/-- Embeds the tail of `PluginConfig.Validate`: no message means success,
otherwise one consolidated error joining every message with "; ". -/
def PluginConfig.Validate (c : PluginConfig) : Option String :=
  if c.ValidateErrors = [] then none
  else some ("configuration validation failed: " ++
    String.intercalate "; " c.ValidateErrors)

/-- Embeds `PluginConfig.GetBanTTL`: the severity-specific TTL when mapped,
else the default TTL. -/
def PluginConfig.GetBanTTL (c : PluginConfig) (severity : String) : Int :=
  match mapLookup c.banTTLBySeverity severity with
  | some ttl => ttl
  | none => c.banTTLDefault

/-- Embeds `PluginConfig.GetScore`: the rule-specific score when mapped, else
the severity-mapped score, else 10. -/
def PluginConfig.GetScore (c : PluginConfig) (ruleID severity : String) : Int :=
  match mapLookup c.scoreRules ruleID with
  | some score => score
  | none =>
      match mapLookup c.scoreBySeverity severity with
      | some score => score
      | none => 10

/-- The JSON configuration document: a present field overrides the default,
an absent one keeps it — Go's `json.Unmarshal` into the result of
`DefaultConfig()`. -/
structure ConfigJson where
  redisCluster : Option String := none
  banTTLDefault : Option Int := none
  banTTLBySeverity : Option (List (String × Int)) := none
  scoringEnabled : Option Bool := none
  scoreThreshold : Option Int := none
  scoreDecaySeconds : Option Int := none
  scoreRules : Option (List (String × Int)) := none
  scoreBySeverity : Option (List (String × Int)) := none
  scoreTTL : Option Int := none
  fingerprintMode : Option String := none
  cookieName : Option String := none
  injectCookie : Option Bool := none
  banResponseCode : Option Int := none
  banResponseBody : Option String := none
  logLevel : Option String := none
  dryRun : Option Bool := none
  eventsEnabled : Option Bool := none
deriving DecidableEq, Repr

/-- Unmarshalling a JSON document over an existing configuration value. -/
def mergeConfig (c : PluginConfig) (j : ConfigJson) : PluginConfig :=
  { redisCluster := j.redisCluster.getD c.redisCluster
    banTTLDefault := j.banTTLDefault.getD c.banTTLDefault
    banTTLBySeverity := j.banTTLBySeverity.getD c.banTTLBySeverity
    scoringEnabled := j.scoringEnabled.getD c.scoringEnabled
    scoreThreshold := j.scoreThreshold.getD c.scoreThreshold
    scoreDecaySeconds := j.scoreDecaySeconds.getD c.scoreDecaySeconds
    scoreRules := j.scoreRules.getD c.scoreRules
    scoreBySeverity := j.scoreBySeverity.getD c.scoreBySeverity
    scoreTTL := j.scoreTTL.getD c.scoreTTL
    fingerprintMode := j.fingerprintMode.getD c.fingerprintMode
    cookieName := j.cookieName.getD c.cookieName
    injectCookie := j.injectCookie.getD c.injectCookie
    banResponseCode := j.banResponseCode.getD c.banResponseCode
    banResponseBody := j.banResponseBody.getD c.banResponseBody
    logLevel := j.logLevel.getD c.logLevel
    dryRun := j.dryRun.getD c.dryRun
    eventsEnabled := j.eventsEnabled.getD c.eventsEnabled }

/-- Embeds `ParseConfig` (config.go): empty configuration data yields the
defaults untouched; otherwise unmarshal over the defaults and apply the
silent corrections of `validate` (decodable input assumed — a JSON syntax
error fails startup before any value is inspected). -/
def ParseConfig (data : Option ConfigJson) : PluginConfig :=
  match data with
  | none => DefaultConfig
  | some j => (mergeConfig DefaultConfig j).validate

/-! ## C8: configuration hard bounds at startup -/

/-- Embeds `pluginContext.OnPluginStart` (part_002, both variants): read the
plugin configuration and parse it; the stored configuration is `ParseConfig`'s
result, and the hook reports failure only on a configuration-read or JSON
syntax error, neither of which a decoded document can exhibit.  No startup
path invokes the fail-fast `PluginConfig.Validate`. -/
def pluginContext.OnPluginStart (data : Option ConfigJson) : Option PluginConfig :=
  some (ParseConfig data)

/-- C8: the program accepts `ban_ttl_default = 86401` at startup.  Startup
(part_002 `OnPluginStart`) runs only `ParseConfig`, whose silent `validate`
keeps any positive TTL, so the configuration is stored with 86401 and the
hook reports success — while the never-invoked fail-fast
`PluginConfig.Validate` (config.go, doc-commented as "called during plugin
startup" and exercised only by the part_003 tests) would have rejected
exactly this value with a consolidated error naming `ban_ttl_default`, and
accepts 86400. -/
theorem C8_startup_accepts_86401 :
    pluginContext.OnPluginStart (some { banTTLDefault := some 86401 }) =
      some { DefaultConfig with banTTLDefault := 86401 } ∧
    ({ DefaultConfig with banTTLDefault := 86401 } : PluginConfig).banTTLDefault = 86401 ∧
    ({ DefaultConfig with banTTLDefault := 86401 } : PluginConfig).ValidateErrors =
      ["ban_ttl_default must be between 1-86400 seconds"] ∧
    ({ DefaultConfig with banTTLDefault := 86401 } : PluginConfig).Validate ≠ none ∧
    pluginContext.OnPluginStart (some { banTTLDefault := some 86400 }) =
      some { DefaultConfig with banTTLDefault := 86400 } ∧
    ({ DefaultConfig with banTTLDefault := 86400 } : PluginConfig).Validate = none := by
  decide

/-! ## Remote store client (redis_client.go `WebdisClient`)

An asynchronous operation is embedded as the HTTP call it dispatches to the
configured cluster (`none` when nothing is dispatched) together with the
callback value it delivers immediately without any remote round-trip
(`none` when the callback instead waits for the HTTP response). -/

/-- One `proxywasm.DispatchHttpCall` to the Webdis gateway. -/
structure DispatchCall where
  cluster : String
  path : String
deriving DecidableEq, Repr

/-- The observable effect of one asynchronous Webdis operation. -/
structure AsyncOp (α : Type) where
  call : Option DispatchCall
  immediate : Option α
deriving DecidableEq, Repr

/-- Embeds `WebdisClient.IsConfigured`: true iff the cluster name is non-empty. -/
def WebdisClient.IsConfigured (cluster : String) : Bool := cluster != ""

/-- Embeds `WebdisClient.CheckBanAsync`: unconfigured means no dispatch and an
immediate (not banned, no entry) callback; otherwise `GET` on the ban key. -/
def WebdisClient.CheckBanAsync (cluster fp : String) : AsyncOp (Bool × Option BanEntry) :=
  if cluster = "" then { call := none, immediate := some (false, none) }
  else { call := some { cluster := cluster, path := "/GET/" ++ BanKey fp }, immediate := none }

/-- Embeds `WebdisClient.SetBanAsync`: unconfigured means no dispatch and an
immediate success callback; otherwise `SETEX` with the entry's TTL and its
URL-escaped JSON payload (`encodedJSON` stands for that payload). -/
def WebdisClient.SetBanAsync (cluster : String) (e : BanEntry) (encodedJSON : String) :
    AsyncOp Bool :=
  if cluster = "" then { call := none, immediate := some true }
  else
    { call := some
        { cluster := cluster
          path := "/SETEX/" ++ BanKey e.fingerprint ++ "/" ++ toString e.ttl ++ "/" ++
            encodedJSON }
      immediate := none }

/-- Embeds `WebdisClient.DeleteBanAsync` (fire-and-forget): unconfigured means
no dispatch; otherwise `DEL` on the ban key. -/
def WebdisClient.DeleteBanAsync (cluster fp : String) : Option DispatchCall :=
  if cluster = "" then none
  else some { cluster := cluster, path := "/DEL/" ++ BanKey fp }

/-- Embeds `WebdisClient.IncrScoreAsync`: unconfigured means no dispatch and an
immediate (0, success) callback; otherwise `INCRBY` on the score key. -/
def WebdisClient.IncrScoreAsync (cluster fp : String) (increment ttl : Int) :
    AsyncOp (Int × Bool) :=
  if cluster = "" then { call := none, immediate := some (0, true) }
  else
    { call := some
        { cluster := cluster
          path := "/INCRBY/" ++ ScoreKey fp ++ "/" ++ toString increment }
      immediate := none }

/-- Embeds `WebdisClient.GetScoreAsync`: unconfigured means no dispatch and an
immediate (0, not found) callback; otherwise `GET` on the score key. -/
def WebdisClient.GetScoreAsync (cluster fp : String) : AsyncOp (Int × Bool) :=
  if cluster = "" then { call := none, immediate := some (0, false) }
  else { call := some { cluster := cluster, path := "/GET/" ++ ScoreKey fp }, immediate := none }

/-! ## C9: the redis_cluster default and the empty-cluster behaviour -/

/-- C9 counterexample to the claim as stated: the default value of
`redis_cluster` — both in `DefaultConfig` and after parsing a configuration
that omits the field — is the string "redis_cluster", not the empty string. -/
theorem C9_counterexample :
    DefaultConfig.redisCluster = "redis_cluster" ∧
    (ParseConfig (some {})).redisCluster = "redis_cluster" ∧
    DefaultConfig.redisCluster ≠ "" := by decide

/-- C9 as amended: a configuration that omits `redis_cluster` parses to the
default cluster name "redis_cluster" (the remote store stays enabled against
that cluster); an *empty* `redis_cluster` does disable the remote store:
`IsConfigured` is false, no remote dispatch is made by any operation, and
each operation immediately reports absent respectively success. -/
theorem C9_redis_cluster_amended (j : ConfigJson) (fp : String) (e : BanEntry)
    (encodedJSON : String) (increment ttl : Int) (hj : j.redisCluster = none) :
    (ParseConfig (some j)).redisCluster = "redis_cluster" ∧
    (ParseConfig none).redisCluster = "redis_cluster" ∧
    WebdisClient.IsConfigured "" = false ∧
    (WebdisClient.CheckBanAsync "" fp).call = none ∧
    (WebdisClient.CheckBanAsync "" fp).immediate = some (false, none) ∧
    (WebdisClient.SetBanAsync "" e encodedJSON).call = none ∧
    (WebdisClient.SetBanAsync "" e encodedJSON).immediate = some true ∧
    WebdisClient.DeleteBanAsync "" fp = none ∧
    (WebdisClient.IncrScoreAsync "" fp increment ttl).call = none ∧
    (WebdisClient.IncrScoreAsync "" fp increment ttl).immediate = some (0, true) ∧
    (WebdisClient.GetScoreAsync "" fp).call = none ∧
    (WebdisClient.GetScoreAsync "" fp).immediate = some (0, false) := by
  refine ⟨?_, by decide, by decide, ?_, ?_, ?_, ?_, ?_, ?_, ?_, ?_, ?_⟩ <;>
    simp [ParseConfig, mergeConfig, PluginConfig.validate, DefaultConfig, hj,
      WebdisClient.CheckBanAsync, WebdisClient.SetBanAsync, WebdisClient.DeleteBanAsync,
      WebdisClient.IncrScoreAsync, WebdisClient.GetScoreAsync]

/-- C9 witness: the amended theorem applied to the empty configuration
document and concrete remote-operation arguments. -/
theorem C9_redis_cluster_witness :
    (ParseConfig (some {})).redisCluster = "redis_cluster" :=
  (C9_redis_cluster_amended {} "f" (NewBanEntry "f" "r" "930120" "high" 60 0) "enc" 20 3600
    rfl).1

/-! ## C7: CAS retry discipline of the local store writes -/

/-- Outcome the substrate returns for one `SetSharedData` attempt; under
concurrent writers the token read a moment earlier may no longer match. -/
inductive SetOutcome
  | ok
  | casMismatch
  | failOther
deriving DecidableEq, Repr

/-- The environment of one store write under possible interference: the cas
token each `GetSharedData` returns and the outcome the substrate gives each
`SetSharedData`. -/
structure CasEnv where
  cas1 : Nat
  out1 : SetOutcome
  cas2 : Nat
  out2 : SetOutcome
deriving DecidableEq, Repr

/-- The observable run of one store write: the cas tokens passed to
`SetSharedData` in order, and whether the write was reported successful. -/
structure SetRun where
  attempts : List Nat
  ok : Bool
deriving DecidableEq, Repr

/-- Embeds the control flow of `LocalBanStore.SetBan` (store_local.go 58-80)
under interference: set under the token read first; only on a cas mismatch,
read a fresh token and set exactly once more; a second failure of any kind,
and a non-mismatch first failure, are surfaced to the caller. -/
def LocalBanStore.SetBanRun (env : CasEnv) : SetRun :=
  match env.out1 with
  | .ok => { attempts := [env.cas1], ok := true }
  | .casMismatch =>
      match env.out2 with
      | .ok => { attempts := [env.cas1, env.cas2], ok := true }
      | _ => { attempts := [env.cas1, env.cas2], ok := false }
  | .failOther => { attempts := [env.cas1], ok := false }

/-- Embeds the control flow of `LocalScoreStore.SetScore` (store_local.go
143-162), textually identical to `SetBan`'s. -/
def LocalScoreStore.SetScoreRun (env : CasEnv) : SetRun :=
  match env.out1 with
  | .ok => { attempts := [env.cas1], ok := true }
  | .casMismatch =>
      match env.out2 with
      | .ok => { attempts := [env.cas1, env.cas2], ok := true }
      | _ => { attempts := [env.cas1, env.cas2], ok := false }
  | .failOther => { attempts := [env.cas1], ok := false }

/-- C7: under every interference environment, a local-store write makes at
most two set attempts; a first cas mismatch is retried exactly once under the
freshly read token; a second collision is surfaced as failure; without a
first mismatch there is exactly one attempt.  This holds for `set_ban` and
`set_score` alike. -/
theorem C7_cas_retry_once (env : CasEnv) :
    (LocalBanStore.SetBanRun env).attempts.length ≤ 2 ∧
    (LocalScoreStore.SetScoreRun env).attempts.length ≤ 2 ∧
    (env.out1 = SetOutcome.casMismatch →
      (LocalBanStore.SetBanRun env).attempts = [env.cas1, env.cas2]) ∧
    (env.out1 = SetOutcome.casMismatch → env.out2 = SetOutcome.casMismatch →
      (LocalBanStore.SetBanRun env).ok = false) ∧
    (env.out1 ≠ SetOutcome.casMismatch →
      (LocalBanStore.SetBanRun env).attempts = [env.cas1]) ∧
    LocalScoreStore.SetScoreRun env = LocalBanStore.SetBanRun env := by
  obtain ⟨c1, o1, c2, o2⟩ := env
  cases o1 <;> cases o2 <;>
    simp [LocalBanStore.SetBanRun, LocalScoreStore.SetScoreRun]

/-! ## Ban service (service_ban.go) -/

/-- Embeds `CorazaMetadata` (part_007): the WAF decision metadata. -/
structure CorazaMetadata where
  action : String
  ruleID : String
  severity : String
  message : String
  matchedData : String
  tags : List String
deriving DecidableEq, Repr

/-- Embeds `CorazaMetadata.IsBlocked`: the lower-cased action is one of
block, deny, drop. -/
def CorazaMetadata.IsBlocked (m : CorazaMetadata) : Bool :=
  let a := m.action.toLower
  a == "block" || a == "deny" || a == "drop"

/-- Embeds `BanIssueResult` (service_ban.go): whether a ban was issued, the
entry, and the current score for score-based bans. -/
structure BanIssueResult where
  issued : Bool
  entry : Option BanEntry
  score : Int
deriving DecidableEq, Repr

/-- Embeds `BanService.issueDirectBan` (service_ban.go 109-129): build the
entry with reason `waf-rule:<rule_id>` and the severity's TTL, persist it
locally, report issued. -/
def BanService.issueDirectBan (cfg : PluginConfig) (sd : SharedData) (now : Int)
    (fp ruleID severity : String) : BanIssueResult × SharedData :=
  let ttl := cfg.GetBanTTL severity
  let reason := "waf-rule:" ++ ruleID
  let entry := NewBanEntry fp reason ruleID severity ttl now
  ({ issued := true, entry := some entry, score := 0 }, LocalBanStore.SetBan sd entry)

/-- Embeds `BanService.issueScoreBasedBan` (service_ban.go 132-177): increment
the score through the score store; when the post-increment score reaches the
threshold, build the entry with reason `score-threshold:<new_score>` carrying
the score, persist it, report issued with the score; otherwise report
not-issued with the score. -/
def BanService.issueScoreBasedBan (cfg : PluginConfig) (sd : SharedData) (now : Int)
    (fp ruleID severity : String) : BanIssueResult × SharedData :=
  let scoreIncrement := cfg.GetScore ruleID severity
  let r := LocalScoreStore.IncrScore cfg.scoreDecaySeconds sd now fp scoreIncrement
  let newScore := r.1
  if cfg.scoreThreshold ≤ newScore then
    let ttl := cfg.GetBanTTL severity
    let reason := "score-threshold:" ++ toString newScore
    let entry := { NewBanEntry fp reason ruleID severity ttl now with score := newScore }
    ({ issued := true, entry := some entry, score := newScore }, LocalBanStore.SetBan r.2 entry)
  else ({ issued := false, entry := none, score := newScore }, r.2)

/-- Embeds `BanService.IssueBan` (service_ban.go 77-106): empty fingerprint or
missing metadata yield not-issued; severity defaults to "medium" and rule id
to "unknown"; scoring mode dispatches to the score-based path, otherwise a
direct ban is issued. -/
def BanService.IssueBan (cfg : PluginConfig) (sd : SharedData) (now : Int) (fp : String)
    (metadata : Option CorazaMetadata) : BanIssueResult × SharedData :=
  if fp = "" then ({ issued := false, entry := none, score := 0 }, sd)
  else
    match metadata with
    | none => ({ issued := false, entry := none, score := 0 }, sd)
    | some md =>
        let severity := if md.severity = "" then "medium" else md.severity
        let ruleID := if md.ruleID = "" then "unknown" else md.ruleID
        if cfg.scoringEnabled then BanService.issueScoreBasedBan cfg sd now fp ruleID severity
        else BanService.issueDirectBan cfg sd now fp ruleID severity

/-! ## C2: score-threshold ban issuance -/


/-- C2: in scoring mode, issuing for a non-empty fingerprint issues exactly
when the post-increment score reaches the configured threshold (equality
included); the issued record carries reason `score-threshold:<new_score>`
and `score = new_score`; below the threshold the result is not-issued and
still reports the score.  `ruleID` and `severity` name the normalized
metadata fields. -/
theorem C2_score_threshold (cfg : PluginConfig) (sd : SharedData) (now : Int)
    (fp ruleID severity : String) (md : CorazaMetadata) (hfp : fp ≠ "")
    (hs : cfg.scoringEnabled = true)
    (hrid : ruleID = if md.ruleID = "" then "unknown" else md.ruleID)
    (hsev : severity = if md.severity = "" then "medium" else md.severity) :
    (BanService.IssueBan cfg sd now fp (some md)).1.score =
      (LocalScoreStore.IncrScore cfg.scoreDecaySeconds sd now fp
        (cfg.GetScore ruleID severity)).1 ∧
    ((BanService.IssueBan cfg sd now fp (some md)).1.issued = true ↔
      cfg.scoreThreshold ≤
        (LocalScoreStore.IncrScore cfg.scoreDecaySeconds sd now fp
          (cfg.GetScore ruleID severity)).1) ∧
    (cfg.scoreThreshold ≤
        (LocalScoreStore.IncrScore cfg.scoreDecaySeconds sd now fp
          (cfg.GetScore ruleID severity)).1 →
      ∃ en, (BanService.IssueBan cfg sd now fp (some md)).1.entry = some en ∧
        en.reason = "score-threshold:" ++ toString
          (LocalScoreStore.IncrScore cfg.scoreDecaySeconds sd now fp
            (cfg.GetScore ruleID severity)).1 ∧
        en.score = (LocalScoreStore.IncrScore cfg.scoreDecaySeconds sd now fp
          (cfg.GetScore ruleID severity)).1 ∧
        en.fingerprint = fp ∧ en.ruleID = ruleID ∧ en.severity = severity ∧
        en.ttl = cfg.GetBanTTL severity) ∧
    ((LocalScoreStore.IncrScore cfg.scoreDecaySeconds sd now fp
        (cfg.GetScore ruleID severity)).1 < cfg.scoreThreshold →
      (BanService.IssueBan cfg sd now fp (some md)).1.issued = false ∧
      (BanService.IssueBan cfg sd now fp (some md)).1.entry = none) := by
  simp only [BanService.IssueBan, if_neg hfp, hs, if_true,
    BanService.issueScoreBasedBan, ← hrid, ← hsev]
  split
  next hth =>
    refine ⟨rfl, by simpa using hth, fun _ => ?_, fun hlt => absurd hth (not_le.mpr hlt)⟩
    exact ⟨_, rfl, by simp [NewBanEntry], by simp [NewBanEntry], by simp [NewBanEntry],
      by simp [NewBanEntry], by simp [NewBanEntry], by simp [NewBanEntry]⟩
  next hth =>
    refine ⟨rfl, by simpa using hth, fun hge => absurd hge hth, fun _ => ⟨rfl, rfl⟩⟩

/-- C2 witness: one WAF hit of medium severity on a fresh store under a
threshold of 20 scores exactly 20 and issues the ban at equality. -/
theorem C2_score_threshold_witness :
    (BanService.IssueBan { DefaultConfig with scoringEnabled := true, scoreThreshold := 20 }
      ⟨[]⟩ 1000 "f" (some (CorazaMetadata.mk "block" "941100" "medium" "" "" []))).1.issued =
      true ↔
    (20 : Int) ≤ (LocalScoreStore.IncrScore 60 ⟨[]⟩ 1000 "f"
      (PluginConfig.GetScore { DefaultConfig with scoringEnabled := true, scoreThreshold := 20 }
        "941100" "medium")).1 :=
  (C2_score_threshold { DefaultConfig with scoringEnabled := true, scoreThreshold := 20 }
    ⟨[]⟩ 1000 "f" "941100" "medium" (CorazaMetadata.mk "block" "941100" "medium" "" "" [])
    (by decide) rfl (by decide) (by decide)).2.1

/-! ## Response-headers state machine (part_002 `httpContext.OnHttpResponseHeaders`) -/

/-- What one pass of the response-headers hook leaves behind: the WAF
decision the context holds, the ban-issue outcome when `issueBan` ran, and
the shared-data state (cookie injection and the action value are out of the
claims' scope). -/
structure RespHeadersOutcome where
  corazaMetadata : Option CorazaMetadata
  issue : Option BanIssueResult
  sd : SharedData
deriving DecidableEq, Repr

/-- Embeds `httpContext.OnHttpResponseHeaders` (part_002 140-181): skip when
the request was already denied as banned; issue a ban when the extracted
metadata is blocking; otherwise, on response status 403 with a non-empty
fingerprint, synthesize the decision `{action: block, severity: medium,
rule_id: waf-403}` and issue from it.  `extracted` is what the metadata
service yields from the ambient proxy state, `statusCode` the response
status. -/
def httpContext.OnHttpResponseHeaders (cfg : PluginConfig) (sd : SharedData) (now : Int)
    (isBanned : Bool) (extracted : Option CorazaMetadata) (statusCode : Int)
    (fp : String) : RespHeadersOutcome :=
  if isBanned then { corazaMetadata := none, issue := none, sd := sd }
  else
    if (match extracted with | some md => md.IsBlocked | none => false) then
      let r := BanService.IssueBan cfg sd now fp extracted
      { corazaMetadata := extracted, issue := some r.1, sd := r.2 }
    else if statusCode = 403 ∧ fp ≠ "" then
      let synth : CorazaMetadata := CorazaMetadata.mk "block" "waf-403" "medium" "" "" []
      let r := BanService.IssueBan cfg sd now fp (some synth)
      { corazaMetadata := some synth, issue := some r.1, sd := r.2 }
    else { corazaMetadata := extracted, issue := none, sd := sd }

/-! ## C6: the 403 fallback -/

/-- C6 as amended: on response headers of a request not already denied, when
metadata extraction yields no decision, the response status is 403, the
fingerprint is non-empty and scoring is disabled, the state machine
synthesizes the decision `{action: block, severity: medium, rule_id:
waf-403}` and issues a ban with reason `waf-rule:waf-403` and `ttl =
GetBanTTL("medium")` — which equals `ban_ttl_default` whenever
`ban_ttl_by_severity` carries no "medium" entry. -/
theorem C6_fallback_403 (cfg : PluginConfig) (sd : SharedData) (now : Int) (fp : String)
    (hfp : fp ≠ "") (hsc : cfg.scoringEnabled = false) :
    (httpContext.OnHttpResponseHeaders cfg sd now false none 403 fp).corazaMetadata =
      some (CorazaMetadata.mk "block" "waf-403" "medium" "" "" []) ∧
    ∃ r en, (httpContext.OnHttpResponseHeaders cfg sd now false none 403 fp).issue = some r ∧
      r.issued = true ∧ r.entry = some en ∧
      en.reason = "waf-rule:waf-403" ∧ en.ruleID = "waf-403" ∧ en.severity = "medium" ∧
      en.fingerprint = fp ∧ en.ttl = cfg.GetBanTTL "medium" ∧
      (mapLookup cfg.banTTLBySeverity "medium" = none → en.ttl = cfg.banTTLDefault) := by
  have hout : httpContext.OnHttpResponseHeaders cfg sd now false none 403 fp =
      { corazaMetadata := some (CorazaMetadata.mk "block" "waf-403" "medium" "" "" [])
        issue := some (BanIssueResult.mk true
          (some (NewBanEntry fp ("waf-rule:" ++ "waf-403") "waf-403" "medium"
            (cfg.GetBanTTL "medium") now)) 0)
        sd := LocalBanStore.SetBan sd (NewBanEntry fp ("waf-rule:" ++ "waf-403") "waf-403"
          "medium" (cfg.GetBanTTL "medium") now) } := by
    simp [httpContext.OnHttpResponseHeaders, hfp, BanService.IssueBan, hsc,
      BanService.issueDirectBan]
  refine ⟨by rw [hout],
    BanIssueResult.mk true
      (some (NewBanEntry fp ("waf-rule:" ++ "waf-403") "waf-403" "medium"
        (cfg.GetBanTTL "medium") now)) 0,
    NewBanEntry fp ("waf-rule:" ++ "waf-403") "waf-403" "medium" (cfg.GetBanTTL "medium") now,
    by rw [hout], rfl, rfl, by simp only [NewBanEntry]; decide, rfl, rfl, rfl, rfl,
    fun hl => by simp [NewBanEntry, PluginConfig.GetBanTTL, hl]⟩

/-- C6 witness: the amended theorem applied to the default configuration and
a concrete fingerprint. -/
theorem C6_fallback_403_witness :
    (httpContext.OnHttpResponseHeaders DefaultConfig ⟨[]⟩ 0 false none 403 "f").corazaMetadata =
      some (CorazaMetadata.mk "block" "waf-403" "medium" "" "" []) :=
  (C6_fallback_403 DefaultConfig ⟨[]⟩ 0 "f" (by decide) (by decide)).1

/-- C6 counterexample to the claim as stated, refuting each part the
amendment adds: with an empty fingerprint nothing is synthesized and no ban
is issued; with scoring enabled the fallback reports a score update but
issues no `waf-rule:waf-403` ban; with `ban_ttl_by_severity` mapping
"medium" to 999 the issued ttl is 999, not `ban_ttl_default` = 600; and with
the request already denied as banned the hook skips entirely. -/
theorem C6_counterexample :
    ((httpContext.OnHttpResponseHeaders DefaultConfig ⟨[]⟩ 0 false none 403 "").corazaMetadata
        = none ∧
      (httpContext.OnHttpResponseHeaders DefaultConfig ⟨[]⟩ 0 false none 403 "").issue
        = none) ∧
    ((httpContext.OnHttpResponseHeaders { DefaultConfig with scoringEnabled := true }
        ⟨[]⟩ 0 false none 403 "f").issue =
      some { issued := false, entry := none, score := 20 }) ∧
    ((httpContext.OnHttpResponseHeaders
        { DefaultConfig with banTTLBySeverity := [("medium", 999)] }
        ⟨[]⟩ 0 false none 403 "f").issue =
      some { issued := true
             entry := some (BanEntry.mk "f" "waf-rule:waf-403" "waf-403" "medium" 0 999 999 0)
             score := 0 } ∧
      (999 : Int) ≠ DefaultConfig.banTTLDefault) ∧
    ((httpContext.OnHttpResponseHeaders DefaultConfig ⟨[]⟩ 0 true none 403 "f").issue
      = none) := by decide

/-! ## Fingerprint service (service_ban_test.go `FingerprintService`)

The getters (`getJA3Fingerprint`, `getUserAgent`, `getClientIP`,
`getTrackingCookie`) read ambient proxy state; their resolved results are
the inputs here, the empty string standing for a missing attribute.
`generatedCookie` stands for the time-derived `generateCookieValue()` result
used only when injection is enabled and no cookie is present. -/

/-- The resolved request attributes a fingerprint is computed from. -/
structure FingerprintInputs where
  ja3 : String
  ua : String
  ip : String
  cookie : String
deriving DecidableEq, Repr

/-- Embeds `FingerprintService.calculateFull` (service_ban_test.go 439-484):
append the labeled non-empty components in the fixed order ja3, ua, ip
(prefixed), cookie; hash their "|"-join, or the literal "unknown" when no
component is present. -/
def FingerprintService.calculateFull (injectCookie : Bool) (generatedCookie : String)
    (inp : FingerprintInputs) : String :=
  let components : List String := []
  let components := if inp.ja3 ≠ "" then components ++ ["ja3:" ++ inp.ja3] else components
  let components := if inp.ua ≠ "" then components ++ ["ua:" ++ inp.ua] else components
  let components :=
    if inp.ip ≠ "" then components ++ ["ip:" ++ extractIPPrefix inp.ip] else components
  let components :=
    if inp.cookie ≠ "" then components ++ ["cookie:" ++ inp.cookie]
    else if injectCookie then components ++ ["cookie:" ++ generatedCookie]
    else components
  if components.length > 0 then sha256Hash (stringsJoin components "|")
  else sha256Hash "unknown"

/-- Embeds `FingerprintService.calculatePartial` (service_ban_test.go
487-524): as `calculateFull` without the JA3 component. -/
def FingerprintService.calculatePartial (injectCookie : Bool) (generatedCookie : String)
    (inp : FingerprintInputs) : String :=
  let components : List String := []
  let components := if inp.ua ≠ "" then components ++ ["ua:" ++ inp.ua] else components
  let components :=
    if inp.ip ≠ "" then components ++ ["ip:" ++ extractIPPrefix inp.ip] else components
  let components :=
    if inp.cookie ≠ "" then components ++ ["cookie:" ++ inp.cookie]
    else if injectCookie then components ++ ["cookie:" ++ generatedCookie]
    else components
  if components.length > 0 then sha256Hash (stringsJoin components "|")
  else sha256Hash "unknown"

/-- Embeds `FingerprintService.calculateIPOnly` (service_ban_test.go
527-539): hash the literal `ip:<raw-ip>` built from the raw IP, or
"unknown" when no IP resolved. -/
def FingerprintService.calculateIPOnly (inp : FingerprintInputs) : String :=
  if inp.ip ≠ "" then sha256Hash ("ip:" ++ inp.ip) else sha256Hash "unknown"

/-- Embeds `FingerprintService.CalculateWithDetails` (service_ban_test.go
420-436): dispatch on the configured mode, any unknown mode falling through
to full. -/
def FingerprintService.CalculateWithDetails (mode : String) (injectCookie : Bool)
    (generatedCookie : String) (inp : FingerprintInputs) : String :=
  if mode = "ip-only" then FingerprintService.calculateIPOnly inp
  else if mode = "partial" then
    FingerprintService.calculatePartial injectCookie generatedCookie inp
  else FingerprintService.calculateFull injectCookie generatedCookie inp

/-- Stated from the claim's words, for comparison with the source
definition: one labeled component per non-empty attribute. -/
def labelNonEmpty (label v : String) : List String :=
  if v = "" then [] else [label ++ v]

/-- Stated from the claim's words: the full-mode component list in its fixed
order, the IP component carrying the /24 prefix. -/
def specFullComponents (inp : FingerprintInputs) : List String :=
  labelNonEmpty "ja3:" inp.ja3 ++ labelNonEmpty "ua:" inp.ua ++
    (if inp.ip = "" then [] else ["ip:" ++ extractIPPrefix inp.ip]) ++
    labelNonEmpty "cookie:" inp.cookie

/-- Stated from the claim's words: the partial-mode component list. -/
def specPartialComponents (inp : FingerprintInputs) : List String :=
  labelNonEmpty "ua:" inp.ua ++
    (if inp.ip = "" then [] else ["ip:" ++ extractIPPrefix inp.ip]) ++
    labelNonEmpty "cookie:" inp.cookie

/-- Stated from the claim's words: hex SHA-256 of the components joined with
"|", or of the literal "unknown" when every component is missing. -/
def specHash (components : List String) : String :=
  if components = [] then sha256Hash "unknown"
  else sha256Hash (stringsJoin components "|")

/-- C5: without cookie injection, the full and partial fingerprints equal
the hex SHA-256 of the non-empty labeled components joined with "|" in the
fixed order; with every component missing the fingerprint is the hash of the
literal "unknown"; and ip-only mode hashes the literal `ip:<raw-ip>` built
from the raw IP — for 10.0.0.5 that input differs from the one the /24
prefix would give. -/
theorem C5_fingerprint_composition (inp : FingerprintInputs) (g : String) :
    FingerprintService.calculateFull false g inp = specHash (specFullComponents inp) ∧
    FingerprintService.calculatePartial false g inp = specHash (specPartialComponents inp) ∧
    (inp.ja3 = "" → inp.ua = "" → inp.ip = "" → inp.cookie = "" →
      FingerprintService.calculateFull false g inp = sha256Hash "unknown" ∧
      FingerprintService.calculateIPOnly inp = sha256Hash "unknown") ∧
    (inp.ip ≠ "" → FingerprintService.calculateIPOnly inp = sha256Hash ("ip:" ++ inp.ip)) ∧
    FingerprintService.CalculateWithDetails "ip-only" false g inp =
      FingerprintService.calculateIPOnly inp ∧
    ("ip:" ++ "10.0.0.5") ≠ ("ip:" ++ extractIPPrefix "10.0.0.5") := by
  refine ⟨?_, ?_, fun h1 h2 h3 h4 => ?_, fun hip => ?_, rfl, by decide⟩
  · by_cases h1 : inp.ja3 = "" <;> by_cases h2 : inp.ua = "" <;>
      by_cases h3 : inp.ip = "" <;> by_cases h4 : inp.cookie = "" <;>
      simp [FingerprintService.calculateFull, specHash, specFullComponents,
        labelNonEmpty, h1, h2, h3, h4]
  · by_cases h2 : inp.ua = "" <;> by_cases h3 : inp.ip = "" <;>
      by_cases h4 : inp.cookie = "" <;>
      simp [FingerprintService.calculatePartial, specHash, specPartialComponents,
        labelNonEmpty, h2, h3, h4]
  · constructor
    · simp [FingerprintService.calculateFull, h1, h2, h3, h4]
    · simp [FingerprintService.calculateIPOnly, h3]
  · simp [FingerprintService.calculateIPOnly, hip]
